import Mathlib

/-!
Shallow embedding of the digitalocean-js client library.

The repository consists of resource service classes (DropletService,
AppService in two variants, SpaceService) whose methods each build one HTTP
request from a base path and identifiers, issue it through an axios
transport, and unwrap a named field of the JSON response body, propagating
rejections unchanged.

We embed JavaScript values reachable in response bodies as `JSValue`
(including `undefined` for JavaScript's undefined, which is what property access
on an object lacking the key yields), HTTP requests as `HttpRequest`
(verb, url string, axios `params` object, optional body), and the axios
transport as a function from requests to `Except AxiosError HttpResponse`:
a resolved promise is `.ok` (axios resolves exactly on 2xx by default) and a
rejected promise is `.error` carrying the axios error value (which holds the
response, with status and body, for HTTP errors, and no response for
network failures). Each service method becomes a function of the transport;
a `...Request` definition records the single request the method issues, and
the method body mirrors the source's then/catch structure.
-/

/-- A JavaScript value as it appears in JSON response bodies, extended with
`undefined` for JavaScript's `undefined`. -/
inductive JSValue where
  | undefined : JSValue
  | null : JSValue
  | bool (b : Bool) : JSValue
  | num (n : Int) : JSValue
  | str (s : String) : JSValue
  | arr (elems : List JSValue) : JSValue
  | obj (fields : List (String × JSValue)) : JSValue

/-- JavaScript property access `v.key`: on an object, the value bound to the
key, or `undefined` when the key is absent; the services only ever access
properties of response bodies, which are objects. -/
def JSValue.getField : JSValue → String → JSValue
  | .obj fields, key =>
    match fields.lookup key with
    | some v => v
    | none => .undefined
  | _, _ => .undefined

/-- The HTTP verbs used by the services. -/
inductive Verb where
  | get : Verb
  | post : Verb
  | delete : Verb
deriving DecidableEq

/-- One HTTP request as handed to the axios transport: the verb method that
was called, the url string (the droplet service interpolates the base url
itself; the app and space services pass paths relative to a configured
instance), the axios `params` config (serialized into the query string by
axios), and the optional request body. -/
structure HttpRequest where
  verb : Verb
  url : String
  params : List (String × String)
  body : Option JSValue

/-- An HTTP response as axios delivers it to a fulfilled promise: the status
code and the parsed JSON body (`data`). -/
structure HttpResponse where
  status : Nat
  data : JSValue

/-- The axios error value a rejected promise carries: for an HTTP error
response (non-2xx) `response` holds the status and body; for a network
failure `response` is `none`. -/
structure AxiosError where
  message : String
  response : Option HttpResponse

/-- The axios transport: resolves (`.ok`) with the response on a 2xx
response, rejects (`.error`) with the axios error otherwise. Service methods
are parameterized by the transport. -/
def Transport : Type := HttpRequest → Except AxiosError HttpResponse

/-- The resolved value of the `Promise<void>`-typed delete operations:
`void` when the source resolves with no value (`resolve()`), or the raw
axios response when the source returns the axios promise itself. -/
inductive DeleteVal where
  | void : DeleteVal
  | response (r : HttpResponse) : DeleteVal

/-- The process-wide axios default headers
(`Axios.defaults.headers.common`), the only mutable state the library
touches. -/
structure AxiosDefaults where
  authorization : Option String
  contentType : Option String
deriving DecidableEq

/-- The default headers attached to every request sent through the shared
axios transport. -/
def Axios.commonHeaders (d : AxiosDefaults) : List (String × String) :=
  (match d.authorization with
   | some a => [("Authorization", a)]
   | none => []) ++
  (match d.contentType with
   | some c => [("Content-Type", c)]
   | none => [])

namespace DropletService

/-- Effect of `new DropletService(accessToken)` on the process-wide axios
defaults: the constructor assigns
`Axios.defaults.headers.common['Authorization'] = `Bearer $\x7baccessToken\x7d``
and `Axios.defaults.headers.common['Content-Type'] = 'application/json'`. -/
def constructorEffect (accessToken : String) (d : AxiosDefaults) : AxiosDefaults :=
  { d with
    authorization := some ("Bearer " ++ accessToken),
    contentType := some "application/json" }

/-- Request of `createNewDroplet`: POST `$\x7bbaseUrl\x7d/droplets` with the
droplet request as body. -/
def createNewDropletRequest (baseUrl : String) (dropletRequest : JSValue) : HttpRequest :=
  { verb := .post, url := baseUrl ++ "/droplets", params := [], body := some dropletRequest }

/-- `createNewDroplet`: resolves with `response.data.droplet`, rejects with
the propagated error. -/
def createNewDroplet (t : Transport) (baseUrl : String) (dropletRequest : JSValue) :
    Except AxiosError JSValue :=
  match t (createNewDropletRequest baseUrl dropletRequest) with
  | .ok response => .ok (response.data.getField "droplet")
  | .error e => .error e

/-- Request of `createMultipleDroplets`: POST `$\x7bbaseUrl\x7d/droplets`
with the droplets request as body. -/
def createMultipleDropletsRequest (baseUrl : String) (dropletsRequest : JSValue) : HttpRequest :=
  { verb := .post, url := baseUrl ++ "/droplets", params := [], body := some dropletsRequest }

/-- `createMultipleDroplets`: resolves with `response.data.droplets`. -/
def createMultipleDroplets (t : Transport) (baseUrl : String) (dropletsRequest : JSValue) :
    Except AxiosError JSValue :=
  match t (createMultipleDropletsRequest baseUrl dropletsRequest) with
  | .ok response => .ok (response.data.getField "droplets")
  | .error e => .error e

/-- Request of `getExistingDroplet`: GET
`$\x7bbaseUrl\x7d/droplets/$\x7bdropletId\x7d`. -/
def getExistingDropletRequest (baseUrl : String) (dropletId : Int) : HttpRequest :=
  { verb := .get, url := baseUrl ++ "/droplets/" ++ toString dropletId, params := [], body := none }

/-- `getExistingDroplet`: resolves with `response.data.droplet`. -/
def getExistingDroplet (t : Transport) (baseUrl : String) (dropletId : Int) :
    Except AxiosError JSValue :=
  match t (getExistingDropletRequest baseUrl dropletId) with
  | .ok response => .ok (response.data.getField "droplet")
  | .error e => .error e

/-- Request of `getAllDroplets`: GET `$\x7bbaseUrl\x7d/droplets`. -/
def getAllDropletsRequest (baseUrl : String) : HttpRequest :=
  { verb := .get, url := baseUrl ++ "/droplets", params := [], body := none }

/-- `getAllDroplets`: resolves with `response.data.droplets`. -/
def getAllDroplets (t : Transport) (baseUrl : String) : Except AxiosError JSValue :=
  match t (getAllDropletsRequest baseUrl) with
  | .ok response => .ok (response.data.getField "droplets")
  | .error e => .error e

/-- Request of `getDropletsByTag`: GET
`$\x7bbaseUrl\x7d/droplets?tag_name=$\x7btag\x7d` (the tag is interpolated
into the url itself). -/
def getDropletsByTagRequest (baseUrl : String) (tag : String) : HttpRequest :=
  { verb := .get, url := baseUrl ++ "/droplets?tag_name=" ++ tag, params := [], body := none }

/-- `getDropletsByTag`: resolves with `response.data.droplets`. -/
def getDropletsByTag (t : Transport) (baseUrl : String) (tag : String) :
    Except AxiosError JSValue :=
  match t (getDropletsByTagRequest baseUrl tag) with
  | .ok response => .ok (response.data.getField "droplets")
  | .error e => .error e

/-- Request of `getAvailableKernelsForDroplet`: GET
`$\x7bbaseUrl\x7d/droplets/$\x7bdropletId\x7d/kernels`. -/
def getAvailableKernelsForDropletRequest (baseUrl : String) (dropletId : Int) : HttpRequest :=
  { verb := .get, url := baseUrl ++ "/droplets/" ++ toString dropletId ++ "/kernels",
    params := [], body := none }

/-- `getAvailableKernelsForDroplet`: resolves with `response.data.kernels`. -/
def getAvailableKernelsForDroplet (t : Transport) (baseUrl : String) (dropletId : Int) :
    Except AxiosError JSValue :=
  match t (getAvailableKernelsForDropletRequest baseUrl dropletId) with
  | .ok response => .ok (response.data.getField "kernels")
  | .error e => .error e

/-- Request of `getSnapshotsForDroplet`: GET
`$\x7bbaseUrl\x7d/droplets/$\x7bdropletId\x7d/snapshots`. -/
def getSnapshotsForDropletRequest (baseUrl : String) (dropletId : Int) : HttpRequest :=
  { verb := .get, url := baseUrl ++ "/droplets/" ++ toString dropletId ++ "/snapshots",
    params := [], body := none }

/-- `getSnapshotsForDroplet`: resolves with `response.data.snapshots`. -/
def getSnapshotsForDroplet (t : Transport) (baseUrl : String) (dropletId : Int) :
    Except AxiosError JSValue :=
  match t (getSnapshotsForDropletRequest baseUrl dropletId) with
  | .ok response => .ok (response.data.getField "snapshots")
  | .error e => .error e

/-- Request of `getBackupsForDroplet`: GET
`$\x7bbaseUrl\x7d/droplets/$\x7bdropletId\x7d/backups`. -/
def getBackupsForDropletRequest (baseUrl : String) (dropletId : Int) : HttpRequest :=
  { verb := .get, url := baseUrl ++ "/droplets/" ++ toString dropletId ++ "/backups",
    params := [], body := none }

/-- `getBackupsForDroplet`: resolves with `response.data.backups`. -/
def getBackupsForDroplet (t : Transport) (baseUrl : String) (dropletId : Int) :
    Except AxiosError JSValue :=
  match t (getBackupsForDropletRequest baseUrl dropletId) with
  | .ok response => .ok (response.data.getField "backups")
  | .error e => .error e

/-- Request of `getDropletActions`: GET
`$\x7bbaseUrl\x7d/droplets/$\x7bdropletId\x7d/actions`. -/
def getDropletActionsRequest (baseUrl : String) (dropletId : Int) : HttpRequest :=
  { verb := .get, url := baseUrl ++ "/droplets/" ++ toString dropletId ++ "/actions",
    params := [], body := none }

/-- `getDropletActions`: resolves with `response.data.actions`. -/
def getDropletActions (t : Transport) (baseUrl : String) (dropletId : Int) :
    Except AxiosError JSValue :=
  match t (getDropletActionsRequest baseUrl dropletId) with
  | .ok response => .ok (response.data.getField "actions")
  | .error e => .error e

/-- Request of `deleteDroplet`: DELETE
`$\x7bbaseUrl\x7d/droplets/$\x7bdropletId\x7d`. -/
def deleteDropletRequest (baseUrl : String) (dropletId : Int) : HttpRequest :=
  { verb := .delete, url := baseUrl ++ "/droplets/" ++ toString dropletId,
    params := [], body := none }

/-- `deleteDroplet`: the then-handler calls `resolve()` with no value. -/
def deleteDroplet (t : Transport) (baseUrl : String) (dropletId : Int) :
    Except AxiosError DeleteVal :=
  match t (deleteDropletRequest baseUrl dropletId) with
  | .ok _ => .ok .void
  | .error e => .error e

/-- Request of `deleteDropletsByTag`: DELETE
`$\x7bbaseUrl\x7d/droplets?tag_name=$\x7btag\x7d`. -/
def deleteDropletsByTagRequest (baseUrl : String) (tag : String) : HttpRequest :=
  { verb := .delete, url := baseUrl ++ "/droplets?tag_name=" ++ tag, params := [], body := none }

/-- `deleteDropletsByTag`: the then-handler calls `resolve()` with no
value. -/
def deleteDropletsByTag (t : Transport) (baseUrl : String) (tag : String) :
    Except AxiosError DeleteVal :=
  match t (deleteDropletsByTagRequest baseUrl tag) with
  | .ok _ => .ok .void
  | .error e => .error e

/-- Request of `getNeighborsForDroplet`: the source calls `Axios.delete` on
`$\x7bbaseUrl\x7d/droplets/$\x7bdropletId\x7d/neighbors`. -/
def getNeighborsForDropletRequest (baseUrl : String) (dropletId : Int) : HttpRequest :=
  { verb := .delete, url := baseUrl ++ "/droplets/" ++ toString dropletId ++ "/neighbors",
    params := [], body := none }

/-- `getNeighborsForDroplet`: resolves with `response.data.droplets`. -/
def getNeighborsForDroplet (t : Transport) (baseUrl : String) (dropletId : Int) :
    Except AxiosError JSValue :=
  match t (getNeighborsForDropletRequest baseUrl dropletId) with
  | .ok response => .ok (response.data.getField "droplets")
  | .error e => .error e

/-- Request of `getDropletNeighbors`: the source calls `Axios.delete` on
`$\x7bbaseUrl\x7d/reports/droplet_neighbors`. -/
def getDropletNeighborsRequest (baseUrl : String) : HttpRequest :=
  { verb := .delete, url := baseUrl ++ "/reports/droplet_neighbors", params := [], body := none }

/-- `getDropletNeighbors`: resolves with `response.data.neighbors`. -/
def getDropletNeighbors (t : Transport) (baseUrl : String) : Except AxiosError JSValue :=
  match t (getDropletNeighborsRequest baseUrl) with
  | .ok response => .ok (response.data.getField "neighbors")
  | .error e => .error e

end DropletService

namespace AppService

/-!
The app service from
`src/packages/digitalocean-js/src/lib/services/app/app.service.ts`: all
paths are lowercase `/apps`, requests go through the shared configured axios
instance (paths are instance-relative), and the delete operations return the
axios promise itself without a then-handler.
-/

/-- Request of `createNewApp`: POST `/apps` with the App as body. -/
def createNewAppRequest (App : JSValue) : HttpRequest :=
  { verb := .post, url := "/apps", params := [], body := some App }

/-- `createNewApp`: resolves with `response.data.App`. -/
def createNewApp (t : Transport) (App : JSValue) : Except AxiosError JSValue :=
  match t (createNewAppRequest App) with
  | .ok response => .ok (response.data.getField "App")
  | .error e => .error e

/-- Request of `createMultipleApps`: POST `/apps` with the Apps request as
body. -/
def createMultipleAppsRequest (AppsRequest : JSValue) : HttpRequest :=
  { verb := .post, url := "/apps", params := [], body := some AppsRequest }

/-- `createMultipleApps`: resolves with `response.data.Apps`. -/
def createMultipleApps (t : Transport) (AppsRequest : JSValue) : Except AxiosError JSValue :=
  match t (createMultipleAppsRequest AppsRequest) with
  | .ok response => .ok (response.data.getField "Apps")
  | .error e => .error e

/-- Request of `getExistingApp`: GET `/apps/$\x7bAppId\x7d`. -/
def getExistingAppRequest (AppId : Int) : HttpRequest :=
  { verb := .get, url := "/apps/" ++ toString AppId, params := [], body := none }

/-- `getExistingApp`: resolves with `response.data.App`. -/
def getExistingApp (t : Transport) (AppId : Int) : Except AxiosError JSValue :=
  match t (getExistingAppRequest AppId) with
  | .ok response => .ok (response.data.getField "App")
  | .error e => .error e

/-- Request of `getAllApps`: GET `/apps`. -/
def getAllAppsRequest : HttpRequest :=
  { verb := .get, url := "/apps", params := [], body := none }

/-- `getAllApps`: resolves with `response.data.Apps`. -/
def getAllApps (t : Transport) : Except AxiosError JSValue :=
  match t getAllAppsRequest with
  | .ok response => .ok (response.data.getField "Apps")
  | .error e => .error e

/-- Request of `getAppsByTag`: GET `/apps` with axios config
`\x7b params: \x7b tag_name: tag \x7d \x7d`. -/
def getAppsByTagRequest (tag : String) : HttpRequest :=
  { verb := .get, url := "/apps", params := [("tag_name", tag)], body := none }

/-- `getAppsByTag`: resolves with `response.data.Apps`. -/
def getAppsByTag (t : Transport) (tag : String) : Except AxiosError JSValue :=
  match t (getAppsByTagRequest tag) with
  | .ok response => .ok (response.data.getField "Apps")
  | .error e => .error e

/-- Request of `deleteApp`: DELETE `/apps/$\x7bAppId\x7d`. -/
def deleteAppRequest (AppId : Int) : HttpRequest :=
  { verb := .delete, url := "/apps/" ++ toString AppId, params := [], body := none }

/-- `deleteApp`: returns `instance.delete(...)` directly, so the promise it
hands back is the axios promise: it resolves with the raw axios response
(even though the declared return type is `Promise<void>`). -/
def deleteApp (t : Transport) (AppId : Int) : Except AxiosError DeleteVal :=
  match t (deleteAppRequest AppId) with
  | .ok response => .ok (.response response)
  | .error e => .error e

/-- Request of `deleteAppsByTag`: DELETE `/apps` with axios config
`\x7b params: \x7b tag_name: tag \x7d \x7d`. -/
def deleteAppsByTagRequest (tag : String) : HttpRequest :=
  { verb := .delete, url := "/apps", params := [("tag_name", tag)], body := none }

/-- `deleteAppsByTag`: returns the axios promise directly, so it resolves
with the raw axios response. -/
def deleteAppsByTag (t : Transport) (tag : String) : Except AxiosError DeleteVal :=
  match t (deleteAppsByTagRequest tag) with
  | .ok response => .ok (.response response)
  | .error e => .error e

end AppService

namespace AppService2

/-!
The second variant of the app service, from `src/unnamed/part_002`: the same
class extended with kernels/snapshots/backups/actions/neighbors operations.
Its paths use capitalized `/Apps` — except `getExistingApp`, which uses
lowercase `/apps/$\x7bAppId\x7d`.
-/

/-- Request of the variant `createNewApp`: POST `/Apps` with the App as
body. -/
def createNewAppRequest (App : JSValue) : HttpRequest :=
  { verb := .post, url := "/Apps", params := [], body := some App }

/-- Variant `createNewApp`: resolves with `response.data.App`. -/
def createNewApp (t : Transport) (App : JSValue) : Except AxiosError JSValue :=
  match t (createNewAppRequest App) with
  | .ok response => .ok (response.data.getField "App")
  | .error e => .error e

/-- Request of the variant `createMultipleApps`: POST `/Apps`. -/
def createMultipleAppsRequest (AppsRequest : JSValue) : HttpRequest :=
  { verb := .post, url := "/Apps", params := [], body := some AppsRequest }

/-- Variant `createMultipleApps`: resolves with `response.data.Apps`. -/
def createMultipleApps (t : Transport) (AppsRequest : JSValue) : Except AxiosError JSValue :=
  match t (createMultipleAppsRequest AppsRequest) with
  | .ok response => .ok (response.data.getField "Apps")
  | .error e => .error e

/-- Request of the variant `getExistingApp`: GET `/apps/$\x7bAppId\x7d` —
lowercase, unlike the sibling operations of the same class. -/
def getExistingAppRequest (AppId : Int) : HttpRequest :=
  { verb := .get, url := "/apps/" ++ toString AppId, params := [], body := none }

/-- Variant `getExistingApp`: resolves with `response.data.App`. -/
def getExistingApp (t : Transport) (AppId : Int) : Except AxiosError JSValue :=
  match t (getExistingAppRequest AppId) with
  | .ok response => .ok (response.data.getField "App")
  | .error e => .error e

/-- Request of the variant `getAllApps`: GET `/Apps`. -/
def getAllAppsRequest : HttpRequest :=
  { verb := .get, url := "/Apps", params := [], body := none }

/-- Variant `getAllApps`: resolves with `response.data.Apps`. -/
def getAllApps (t : Transport) : Except AxiosError JSValue :=
  match t getAllAppsRequest with
  | .ok response => .ok (response.data.getField "Apps")
  | .error e => .error e

/-- Request of the variant `getAppsByTag`: GET `/Apps` with axios config
`\x7b params: \x7b tag_name: tag \x7d \x7d`. -/
def getAppsByTagRequest (tag : String) : HttpRequest :=
  { verb := .get, url := "/Apps", params := [("tag_name", tag)], body := none }

/-- Variant `getAppsByTag`: resolves with `response.data.Apps`. -/
def getAppsByTag (t : Transport) (tag : String) : Except AxiosError JSValue :=
  match t (getAppsByTagRequest tag) with
  | .ok response => .ok (response.data.getField "Apps")
  | .error e => .error e

/-- Request of `getAvailableKernelsForApp`: GET
`/Apps/$\x7bAppId\x7d/kernels`. -/
def getAvailableKernelsForAppRequest (AppId : Int) : HttpRequest :=
  { verb := .get, url := "/Apps/" ++ toString AppId ++ "/kernels", params := [], body := none }

/-- `getAvailableKernelsForApp`: resolves with `response.data.kernels`. -/
def getAvailableKernelsForApp (t : Transport) (AppId : Int) : Except AxiosError JSValue :=
  match t (getAvailableKernelsForAppRequest AppId) with
  | .ok response => .ok (response.data.getField "kernels")
  | .error e => .error e

/-- Request of `getSnapshotsForApp`: GET `/Apps/$\x7bAppId\x7d/snapshots`. -/
def getSnapshotsForAppRequest (AppId : Int) : HttpRequest :=
  { verb := .get, url := "/Apps/" ++ toString AppId ++ "/snapshots", params := [], body := none }

/-- `getSnapshotsForApp`: resolves with `response.data.snapshots`. -/
def getSnapshotsForApp (t : Transport) (AppId : Int) : Except AxiosError JSValue :=
  match t (getSnapshotsForAppRequest AppId) with
  | .ok response => .ok (response.data.getField "snapshots")
  | .error e => .error e

/-- Request of `getBackupsForApp`: GET `/Apps/$\x7bAppId\x7d/backups`. -/
def getBackupsForAppRequest (AppId : Int) : HttpRequest :=
  { verb := .get, url := "/Apps/" ++ toString AppId ++ "/backups", params := [], body := none }

/-- `getBackupsForApp`: resolves with `response.data.backups`. -/
def getBackupsForApp (t : Transport) (AppId : Int) : Except AxiosError JSValue :=
  match t (getBackupsForAppRequest AppId) with
  | .ok response => .ok (response.data.getField "backups")
  | .error e => .error e

/-- Request of `getAppActions`: GET `/Apps/$\x7bAppId\x7d/actions`. -/
def getAppActionsRequest (AppId : Int) : HttpRequest :=
  { verb := .get, url := "/Apps/" ++ toString AppId ++ "/actions", params := [], body := none }

/-- `getAppActions`: resolves with `response.data.actions`. -/
def getAppActions (t : Transport) (AppId : Int) : Except AxiosError JSValue :=
  match t (getAppActionsRequest AppId) with
  | .ok response => .ok (response.data.getField "actions")
  | .error e => .error e

/-- Request of the variant `deleteApp`: DELETE `/Apps/$\x7bAppId\x7d`. -/
def deleteAppRequest (AppId : Int) : HttpRequest :=
  { verb := .delete, url := "/Apps/" ++ toString AppId, params := [], body := none }

/-- Variant `deleteApp`: returns the axios promise directly, so it resolves
with the raw axios response. -/
def deleteApp (t : Transport) (AppId : Int) : Except AxiosError DeleteVal :=
  match t (deleteAppRequest AppId) with
  | .ok response => .ok (.response response)
  | .error e => .error e

/-- Request of the variant `deleteAppsByTag`: DELETE `/Apps` with axios
config `\x7b params: \x7b tag_name: tag \x7d \x7d`. -/
def deleteAppsByTagRequest (tag : String) : HttpRequest :=
  { verb := .delete, url := "/Apps", params := [("tag_name", tag)], body := none }

/-- Variant `deleteAppsByTag`: returns the axios promise directly. -/
def deleteAppsByTag (t : Transport) (tag : String) : Except AxiosError DeleteVal :=
  match t (deleteAppsByTagRequest tag) with
  | .ok response => .ok (.response response)
  | .error e => .error e

/-- Request of `getNeighborsForApp`: the source calls `instance.delete` on
`/Apps/$\x7bAppId\x7d/neighbors`. -/
def getNeighborsForAppRequest (AppId : Int) : HttpRequest :=
  { verb := .delete, url := "/Apps/" ++ toString AppId ++ "/neighbors", params := [], body := none }

/-- `getNeighborsForApp`: resolves with `response.data.Apps`. -/
def getNeighborsForApp (t : Transport) (AppId : Int) : Except AxiosError JSValue :=
  match t (getNeighborsForAppRequest AppId) with
  | .ok response => .ok (response.data.getField "Apps")
  | .error e => .error e

/-- Request of `getAppNeighbors`: the source calls `instance.delete` on
`/reports/App_neighbors`. -/
def getAppNeighborsRequest : HttpRequest :=
  { verb := .delete, url := "/reports/App_neighbors", params := [], body := none }

/-- `getAppNeighbors`: resolves with `response.data.neighbors`. -/
def getAppNeighbors (t : Transport) : Except AxiosError JSValue :=
  match t getAppNeighborsRequest with
  | .ok response => .ok (response.data.getField "neighbors")
  | .error e => .error e

end AppService2

namespace SpaceService

/-- Request of `getUserInformation` (from `src/unnamed/part_001`): GET
`/app`. -/
def getUserInformationRequest : HttpRequest :=
  { verb := .get, url := "/app", params := [], body := none }

/-- `getUserInformation`: resolves with `response.data.account`; with no
catch handler, a rejection propagates unchanged. -/
def getUserInformation (t : Transport) : Except AxiosError JSValue :=
  match t getUserInformationRequest with
  | .ok response => .ok (response.data.getField "account")
  | .error e => .error e

end SpaceService

/-!
Helper lemmas about the common then/catch unwrapping shape shared by every
service method.
-/

/-- The then/catch shape every unwrapping method compiles to equals `map`
over the transport's result: the then-handler transforms a fulfilled
response, a rejection passes through unchanged. -/
theorem unwrap_eq_map {α : Type} (x : Except AxiosError HttpResponse) (f : HttpResponse → α) :
    (match x with
     | .ok response => (Except.ok (f response) : Except AxiosError α)
     | .error e => Except.error e) = x.map f := by
  cases x <;> rfl

/-- The then/catch shape on a fulfilled transport call resolves with the
then-handler applied to the response. -/
theorem unwrap_ok {α : Type} (x : Except AxiosError HttpResponse) (f : HttpResponse → α)
    (r : HttpResponse) (hx : x = .ok r) :
    (match x with
     | .ok response => (Except.ok (f response) : Except AxiosError α)
     | .error e => Except.error e) = .ok (f r) := by
  rw [hx]

/-- The then/catch shape on a rejected transport call rejects with exactly
the transport's error. -/
theorem unwrap_error {α : Type} (x : Except AxiosError HttpResponse) (f : HttpResponse → α)
    (e : AxiosError) (hx : x = .error e) :
    (match x with
     | .ok response => (Except.ok (f response) : Except AxiosError α)
     | .error err => Except.error err) = .error e := by
  rw [hx]

/-- Reassociation of string templating: appending two fixed segments one
after the other equals appending their concatenation. -/
theorem append_append (a x y z : String) (h : x ++ y = z) :
    a ++ x ++ y = a ++ z := by
  rw [String.append_assoc, h]

/-- String append cancels on the left. -/
theorem string_append_left_cancel {a b c : String} (h : a ++ b = a ++ c) : b = c := by
  have hd : a.data ++ b.data = a.data ++ c.data := by
    have hq := congrArg String.data h
    simpa [String.data_append] using hq
  have hbc : b.data = c.data := by simpa using hd
  calc b = ⟨b.data⟩ := rfl
    _ = ⟨c.data⟩ := by rw [hbc]
    _ = c := rfl

/-- C1: The neighbor-lookup operations (`DropletService.getNeighborsForDroplet`,
`DropletService.getDropletNeighbors`, and the App-service equivalents
`getNeighborsForApp` and `getAppNeighbors`) issue their HTTP requests with
the DELETE verb — not GET — both on the per-resource
`.../neighbors` endpoint and on the account-wide
`/reports/droplet_neighbors` resp. `/reports/App_neighbors` report
endpoint, and resolve with the plural envelope field of the response
body. -/
theorem C1_neighbor_lookups_issue_delete (t : Transport) (baseUrl : String)
    (dropletId AppId : Int) :
    (DropletService.getNeighborsForDropletRequest baseUrl dropletId).verb = Verb.delete ∧
    (DropletService.getDropletNeighborsRequest baseUrl).verb = Verb.delete ∧
    (AppService2.getNeighborsForAppRequest AppId).verb = Verb.delete ∧
    AppService2.getAppNeighborsRequest.verb = Verb.delete ∧
    (DropletService.getNeighborsForDropletRequest baseUrl dropletId).verb ≠ Verb.get ∧
    (DropletService.getNeighborsForDropletRequest baseUrl dropletId).url
      = baseUrl ++ "/droplets/" ++ toString dropletId ++ "/neighbors" ∧
    (DropletService.getDropletNeighborsRequest baseUrl).url
      = baseUrl ++ "/reports/droplet_neighbors" ∧
    (AppService2.getNeighborsForAppRequest AppId).url
      = "/Apps/" ++ toString AppId ++ "/neighbors" ∧
    AppService2.getAppNeighborsRequest.url = "/reports/App_neighbors" ∧
    DropletService.getNeighborsForDroplet t baseUrl dropletId
      = (t (DropletService.getNeighborsForDropletRequest baseUrl dropletId)).map
          (fun r => r.data.getField "droplets") ∧
    DropletService.getDropletNeighbors t baseUrl
      = (t (DropletService.getDropletNeighborsRequest baseUrl)).map
          (fun r => r.data.getField "neighbors") ∧
    AppService2.getNeighborsForApp t AppId
      = (t (AppService2.getNeighborsForAppRequest AppId)).map
          (fun r => r.data.getField "Apps") ∧
    AppService2.getAppNeighbors t
      = (t AppService2.getAppNeighborsRequest).map
          (fun r => r.data.getField "neighbors") := by
  refine ⟨rfl, rfl, rfl, rfl, ?_, rfl, rfl, rfl, rfl, ?_, ?_, ?_, ?_⟩
  · intro h
    exact Verb.noConfusion h
  · exact unwrap_eq_map _ _
  · exact unwrap_eq_map _ _
  · exact unwrap_eq_map _ _
  · exact unwrap_eq_map _ _

/-- C2 counterexample: the claim that `deleteApp` resolves with no value on
a 2xx response is false — against a transport that fulfills every request
with a bodyless 204 response, `AppService.deleteApp` resolves with the raw
axios response (the source returns the axios promise directly), not with
the void resolution that `DropletService.deleteDroplet` produces. -/
theorem C2_counterexample :
    AppService.deleteApp
        (fun _ => Except.ok { status := 204, data := JSValue.undefined }) 7
      = Except.ok (DeleteVal.response { status := 204, data := JSValue.undefined }) ∧
    AppService.deleteApp
        (fun _ => Except.ok { status := 204, data := JSValue.undefined }) 7
      ≠ Except.ok DeleteVal.void ∧
    DropletService.deleteDroplet
        (fun _ => Except.ok { status := 204, data := JSValue.undefined })
        "https://api.digitalocean.com/v2" 7
      = Except.ok DeleteVal.void := by
  refine ⟨rfl, ?_, rfl⟩
  intro h
  exact DeleteVal.noConfusion (Except.ok.inj h)

/-- C2 (amended): `deleteDroplet` and `deleteDropletsByTag` resolve with no
value on every fulfilled transport call — including when zero resources
matched the tag, since the resolution is independent of the response — and
reject with the propagated error on a rejected call; `deleteApp` and
`deleteAppsByTag` (in both app-service variants) return the transport's
promise directly, so they resolve with the raw axios response rather than
with no value, and likewise reject with the propagated error. -/
theorem C2_delete_resolution (t : Transport) (baseUrl tag : String)
    (dropletId AppId : Int) :
    DropletService.deleteDroplet t baseUrl dropletId
      = (t (DropletService.deleteDropletRequest baseUrl dropletId)).map
          (fun _ => DeleteVal.void) ∧
    DropletService.deleteDropletsByTag t baseUrl tag
      = (t (DropletService.deleteDropletsByTagRequest baseUrl tag)).map
          (fun _ => DeleteVal.void) ∧
    AppService.deleteApp t AppId
      = (t (AppService.deleteAppRequest AppId)).map DeleteVal.response ∧
    AppService.deleteAppsByTag t tag
      = (t (AppService.deleteAppsByTagRequest tag)).map DeleteVal.response ∧
    AppService2.deleteApp t AppId
      = (t (AppService2.deleteAppRequest AppId)).map DeleteVal.response ∧
    AppService2.deleteAppsByTag t tag
      = (t (AppService2.deleteAppsByTagRequest tag)).map DeleteVal.response := by
  exact ⟨unwrap_eq_map _ _, unwrap_eq_map _ _, unwrap_eq_map _ _,
    unwrap_eq_map _ _, unwrap_eq_map _ _, unwrap_eq_map _ _⟩

/-- C3: For every resource service, the create operation issues a POST to
the resource collection path with the caller's spec as the request body and
resolves with the singular envelope field of the response body, while the
create-multiple operation issues a POST to the very same endpoint (the two
requests are equal) and resolves with the plural envelope field; both
propagate a rejected transport call unchanged (`map` leaves `error`
untouched). -/
theorem C3_create_unwraps_singular_multiple_plural (t : Transport)
    (baseUrl : String) (spec : JSValue) :
    DropletService.createNewDropletRequest baseUrl spec
      = DropletService.createMultipleDropletsRequest baseUrl spec ∧
    (DropletService.createNewDropletRequest baseUrl spec).verb = Verb.post ∧
    (DropletService.createNewDropletRequest baseUrl spec).url = baseUrl ++ "/droplets" ∧
    (DropletService.createNewDropletRequest baseUrl spec).body = some spec ∧
    DropletService.createNewDroplet t baseUrl spec
      = (t (DropletService.createNewDropletRequest baseUrl spec)).map
          (fun r => r.data.getField "droplet") ∧
    DropletService.createMultipleDroplets t baseUrl spec
      = (t (DropletService.createMultipleDropletsRequest baseUrl spec)).map
          (fun r => r.data.getField "droplets") ∧
    AppService.createNewAppRequest spec = AppService.createMultipleAppsRequest spec ∧
    (AppService.createNewAppRequest spec).verb = Verb.post ∧
    (AppService.createNewAppRequest spec).url = "/apps" ∧
    (AppService.createNewAppRequest spec).body = some spec ∧
    AppService.createNewApp t spec
      = (t (AppService.createNewAppRequest spec)).map
          (fun r => r.data.getField "App") ∧
    AppService.createMultipleApps t spec
      = (t (AppService.createMultipleAppsRequest spec)).map
          (fun r => r.data.getField "Apps") ∧
    AppService2.createNewAppRequest spec = AppService2.createMultipleAppsRequest spec ∧
    (AppService2.createNewAppRequest spec).body = some spec ∧
    AppService2.createNewApp t spec
      = (t (AppService2.createNewAppRequest spec)).map
          (fun r => r.data.getField "App") ∧
    AppService2.createMultipleApps t spec
      = (t (AppService2.createMultipleAppsRequest spec)).map
          (fun r => r.data.getField "Apps") := by
  exact ⟨rfl, rfl, rfl, rfl, unwrap_eq_map _ _, unwrap_eq_map _ _,
    rfl, rfl, rfl, rfl, unwrap_eq_map _ _, unwrap_eq_map _ _,
    rfl, rfl, unwrap_eq_map _ _, unwrap_eq_map _ _⟩

/-- C3 witness: the create and create-multiple requests of the droplet
service coincide at a concrete spec, and against a stub transport whose
response nests both envelope fields, create resolves with the singular
object and create-multiple with the plural array. -/
theorem C3_witness :
    DropletService.createNewDroplet
        (fun _ => Except.ok { status := 202, data := JSValue.obj [
          ("droplet", JSValue.obj [("id", JSValue.num 1)]),
          ("droplets", JSValue.arr [JSValue.obj [("id", JSValue.num 1)]])] })
        "https://api.digitalocean.com/v2" (JSValue.obj [("name", JSValue.str "example.com")])
      = Except.ok (JSValue.obj [("id", JSValue.num 1)]) ∧
    DropletService.createMultipleDroplets
        (fun _ => Except.ok { status := 202, data := JSValue.obj [
          ("droplet", JSValue.obj [("id", JSValue.num 1)]),
          ("droplets", JSValue.arr [JSValue.obj [("id", JSValue.num 1)]])] })
        "https://api.digitalocean.com/v2" (JSValue.obj [("name", JSValue.str "example.com")])
      = Except.ok (JSValue.arr [JSValue.obj [("id", JSValue.num 1)]]) := by
  have h := C3_create_unwraps_singular_multiple_plural
      (fun _ => Except.ok { status := 202, data := JSValue.obj [
        ("droplet", JSValue.obj [("id", JSValue.num 1)]),
        ("droplets", JSValue.arr [JSValue.obj [("id", JSValue.num 1)]])] })
      "https://api.digitalocean.com/v2" (JSValue.obj [("name", JSValue.str "example.com")])
  exact ⟨h.2.2.2.2.1.trans rfl, h.2.2.2.2.2.1.trans rfl⟩

/-- C4: For every resource service, getAll and getByTag resolve with the
plural envelope field of the response body: whenever the transport fulfills
with a response whose collection field is an array, the operation resolves
with exactly that array (so an empty collection field yields an empty
sequence, never null and never a rejection, and a non-empty collection is
returned in response order, unchanged). -/
theorem C4_getAll_getByTag_return_plural_field (t : Transport) (baseUrl tag : String)
    (resp : HttpResponse) (xs : List JSValue) :
    (t (DropletService.getAllDropletsRequest baseUrl) = .ok resp →
      resp.data.getField "droplets" = JSValue.arr xs →
      DropletService.getAllDroplets t baseUrl = .ok (JSValue.arr xs)) ∧
    (t (DropletService.getDropletsByTagRequest baseUrl tag) = .ok resp →
      resp.data.getField "droplets" = JSValue.arr xs →
      DropletService.getDropletsByTag t baseUrl tag = .ok (JSValue.arr xs)) ∧
    (t AppService.getAllAppsRequest = .ok resp →
      resp.data.getField "Apps" = JSValue.arr xs →
      AppService.getAllApps t = .ok (JSValue.arr xs)) ∧
    (t (AppService.getAppsByTagRequest tag) = .ok resp →
      resp.data.getField "Apps" = JSValue.arr xs →
      AppService.getAppsByTag t tag = .ok (JSValue.arr xs)) ∧
    (t AppService2.getAllAppsRequest = .ok resp →
      resp.data.getField "Apps" = JSValue.arr xs →
      AppService2.getAllApps t = .ok (JSValue.arr xs)) ∧
    (t (AppService2.getAppsByTagRequest tag) = .ok resp →
      resp.data.getField "Apps" = JSValue.arr xs →
      AppService2.getAppsByTag t tag = .ok (JSValue.arr xs)) ∧
    JSValue.arr xs ≠ JSValue.null ∧
    (∀ e : AxiosError, (Except.ok (JSValue.arr xs) : Except AxiosError JSValue) ≠ .error e) := by
  refine ⟨?_, ?_, ?_, ?_, ?_, ?_, ?_, ?_⟩
  · intro h1 h2
    exact (unwrap_ok _ _ _ h1).trans (congrArg Except.ok h2)
  · intro h1 h2
    exact (unwrap_ok _ _ _ h1).trans (congrArg Except.ok h2)
  · intro h1 h2
    exact (unwrap_ok _ _ _ h1).trans (congrArg Except.ok h2)
  · intro h1 h2
    exact (unwrap_ok _ _ _ h1).trans (congrArg Except.ok h2)
  · intro h1 h2
    exact (unwrap_ok _ _ _ h1).trans (congrArg Except.ok h2)
  · intro h1 h2
    exact (unwrap_ok _ _ _ h1).trans (congrArg Except.ok h2)
  · intro h
    exact JSValue.noConfusion h
  · intro e h
    exact Except.noConfusion h

/-- C4 witness: against a stub transport fulfilling every request with a
response whose collection fields are empty arrays, getAll resolves with the
empty sequence for both the droplet service and the app service. -/
theorem C4_witness :
    DropletService.getAllDroplets
        (fun _ => Except.ok
          { status := 200,
            data := JSValue.obj [("droplets", JSValue.arr []), ("Apps", JSValue.arr [])] })
        "https://api.digitalocean.com/v2"
      = Except.ok (JSValue.arr []) ∧
    AppService.getAllApps
        (fun _ => Except.ok
          { status := 200,
            data := JSValue.obj [("droplets", JSValue.arr []), ("Apps", JSValue.arr [])] })
      = Except.ok (JSValue.arr []) := by
  have h := C4_getAll_getByTag_return_plural_field
      (fun _ => Except.ok
        { status := 200,
          data := JSValue.obj [("droplets", JSValue.arr []), ("Apps", JSValue.arr [])] })
      "https://api.digitalocean.com/v2" "web"
      { status := 200,
          data := JSValue.obj [("droplets", JSValue.arr []), ("Apps", JSValue.arr [])] }
      []
  exact ⟨h.1 rfl rfl, h.2.2.1 rfl rfl⟩

/-- C5: When the transport fulfills but the response body lacks the expected
envelope field, the unwrapping operations (create, getExisting, getAll, and
the associated-resource getters) do not reject with a malformed-response
error: JavaScript property access on the body yields undefined and the
operation resolves successfully with that undefined value. -/
theorem C5_missing_envelope_field_resolves_undefined (t : Transport)
    (baseUrl : String) (dropletId AppId : Int) (spec : JSValue) (resp : HttpResponse) :
    (t (DropletService.createNewDropletRequest baseUrl spec) = .ok resp →
      resp.data.getField "droplet" = JSValue.undefined →
      DropletService.createNewDroplet t baseUrl spec = .ok JSValue.undefined) ∧
    (t (DropletService.getExistingDropletRequest baseUrl dropletId) = .ok resp →
      resp.data.getField "droplet" = JSValue.undefined →
      DropletService.getExistingDroplet t baseUrl dropletId = .ok JSValue.undefined) ∧
    (t (DropletService.getAllDropletsRequest baseUrl) = .ok resp →
      resp.data.getField "droplets" = JSValue.undefined →
      DropletService.getAllDroplets t baseUrl = .ok JSValue.undefined) ∧
    (t (DropletService.getAvailableKernelsForDropletRequest baseUrl dropletId) = .ok resp →
      resp.data.getField "kernels" = JSValue.undefined →
      DropletService.getAvailableKernelsForDroplet t baseUrl dropletId = .ok JSValue.undefined) ∧
    (t (AppService.getExistingAppRequest AppId) = .ok resp →
      resp.data.getField "App" = JSValue.undefined →
      AppService.getExistingApp t AppId = .ok JSValue.undefined) ∧
    (∀ fields : List (String × JSValue), fields.lookup "droplet" = none →
      JSValue.getField (JSValue.obj fields) "droplet" = JSValue.undefined) := by
  refine ⟨?_, ?_, ?_, ?_, ?_, ?_⟩
  · intro h1 h2
    exact (unwrap_ok _ _ _ h1).trans (congrArg Except.ok h2)
  · intro h1 h2
    exact (unwrap_ok _ _ _ h1).trans (congrArg Except.ok h2)
  · intro h1 h2
    exact (unwrap_ok _ _ _ h1).trans (congrArg Except.ok h2)
  · intro h1 h2
    exact (unwrap_ok _ _ _ h1).trans (congrArg Except.ok h2)
  · intro h1 h2
    exact (unwrap_ok _ _ _ h1).trans (congrArg Except.ok h2)
  · intro fields h
    simp [JSValue.getField, h]

/-- C5 witness: against a stub transport whose fulfilled response body is an
object with no envelope field at all, getExisting resolves successfully with
the undefined value in both the droplet and the app service. -/
theorem C5_witness :
    DropletService.getExistingDroplet
        (fun _ => Except.ok { status := 200, data := JSValue.obj [("id", JSValue.num 42)] })
        "https://api.digitalocean.com/v2" 42
      = Except.ok JSValue.undefined ∧
    AppService.getExistingApp
        (fun _ => Except.ok { status := 200, data := JSValue.obj [("id", JSValue.num 42)] })
        42
      = Except.ok JSValue.undefined := by
  have h := C5_missing_envelope_field_resolves_undefined
      (fun _ => Except.ok { status := 200, data := JSValue.obj [("id", JSValue.num 42)] })
      "https://api.digitalocean.com/v2" 42 42 (JSValue.obj [])
      { status := 200, data := JSValue.obj [("id", JSValue.num 42)] }
  exact ⟨h.2.1 rfl rfl, h.2.2.2.2.1 rfl rfl⟩

/-- C6: For every operation, a rejected transport call propagates to the
caller as exactly the transport's error value, unchanged — whether it is an
HTTP error (the axios error carries the response with its status, e.g. 404,
and body) or a network failure (no response): when the transport rejects
every request with error `e`, every operation of every service rejects with
that same `e`; no retry, transformation, or swallowing occurs (each method
consults the transport once and its catch-handler forwards the error
verbatim). -/
theorem C6_failures_propagate_verbatim (t : Transport) (baseUrl tag : String)
    (dropletId AppId : Int) (spec : JSValue) (e : AxiosError)
    (h : ∀ r, t r = .error e) :
    DropletService.getExistingDroplet t baseUrl dropletId = .error e ∧
    DropletService.createNewDroplet t baseUrl spec = .error e ∧
    DropletService.createMultipleDroplets t baseUrl spec = .error e ∧
    DropletService.getAllDroplets t baseUrl = .error e ∧
    DropletService.getDropletsByTag t baseUrl tag = .error e ∧
    DropletService.getAvailableKernelsForDroplet t baseUrl dropletId = .error e ∧
    DropletService.getSnapshotsForDroplet t baseUrl dropletId = .error e ∧
    DropletService.getBackupsForDroplet t baseUrl dropletId = .error e ∧
    DropletService.getDropletActions t baseUrl dropletId = .error e ∧
    DropletService.deleteDroplet t baseUrl dropletId = .error e ∧
    DropletService.deleteDropletsByTag t baseUrl tag = .error e ∧
    DropletService.getNeighborsForDroplet t baseUrl dropletId = .error e ∧
    DropletService.getDropletNeighbors t baseUrl = .error e ∧
    AppService.createNewApp t spec = .error e ∧
    AppService.createMultipleApps t spec = .error e ∧
    AppService.getExistingApp t AppId = .error e ∧
    AppService.getAllApps t = .error e ∧
    AppService.getAppsByTag t tag = .error e ∧
    AppService.deleteApp t AppId = .error e ∧
    AppService.deleteAppsByTag t tag = .error e ∧
    AppService2.getExistingApp t AppId = .error e ∧
    AppService2.getAvailableKernelsForApp t AppId = .error e ∧
    AppService2.getNeighborsForApp t AppId = .error e ∧
    AppService2.getAppNeighbors t = .error e ∧
    SpaceService.getUserInformation t = .error e := by
  refine ⟨?_, ?_, ?_, ?_, ?_, ?_, ?_, ?_, ?_, ?_, ?_, ?_, ?_, ?_, ?_, ?_, ?_,
    ?_, ?_, ?_, ?_, ?_, ?_, ?_, ?_⟩
  all_goals
    simp only [DropletService.getExistingDroplet, DropletService.createNewDroplet,
      DropletService.createMultipleDroplets, DropletService.getAllDroplets,
      DropletService.getDropletsByTag, DropletService.getAvailableKernelsForDroplet,
      DropletService.getSnapshotsForDroplet, DropletService.getBackupsForDroplet,
      DropletService.getDropletActions, DropletService.deleteDroplet,
      DropletService.deleteDropletsByTag, DropletService.getNeighborsForDroplet,
      DropletService.getDropletNeighbors, AppService.createNewApp,
      AppService.createMultipleApps, AppService.getExistingApp, AppService.getAllApps,
      AppService.getAppsByTag, AppService.deleteApp, AppService.deleteAppsByTag,
      AppService2.getExistingApp, AppService2.getAvailableKernelsForApp,
      AppService2.getNeighborsForApp, AppService2.getAppNeighbors,
      SpaceService.getUserInformation, h]

/-- C6 witness: against a transport rejecting every request with an axios
error carrying an HTTP 404 response (status and body), getExisting rejects
with exactly that error, and so does a create call. -/
theorem C6_witness :
    DropletService.getExistingDroplet
        (fun _ => Except.error
          { message := "Request failed with status code 404",
            response := some
              { status := 404,
                data := JSValue.obj [("id", JSValue.str "not_found")] } })
        "https://api.digitalocean.com/v2" 42
      = Except.error
          { message := "Request failed with status code 404",
            response := some
              { status := 404,
                data := JSValue.obj [("id", JSValue.str "not_found")] } } ∧
    DropletService.createNewDroplet
        (fun _ => Except.error
          { message := "Request failed with status code 404",
            response := some
              { status := 404,
                data := JSValue.obj [("id", JSValue.str "not_found")] } })
        "https://api.digitalocean.com/v2" (JSValue.obj [])
      = Except.error
          { message := "Request failed with status code 404",
            response := some
              { status := 404,
                data := JSValue.obj [("id", JSValue.str "not_found")] } } := by
  have h := C6_failures_propagate_verbatim
      (fun _ => Except.error
        { message := "Request failed with status code 404",
          response := some
            { status := 404,
              data := JSValue.obj [("id", JSValue.str "not_found")] } })
      "https://api.digitalocean.com/v2" "web" 42 3 (JSValue.obj [])
      { message := "Request failed with status code 404",
        response := some
          { status := 404,
            data := JSValue.obj [("id", JSValue.str "not_found")] } }
      (fun r => rfl)
  exact ⟨h.1, h.2.1⟩

/-- C7: Constructing a DropletService assigns the process-wide default
Authorization (Bearer token) and Content-Type headers on the shared axios
transport; constructing a second instance with a different access token
overwrites them, so after the two constructions the shared defaults — and
hence the headers attached to the requests of every instance — are exactly
those of the most recent construction, and no longer carry the first
instance's token. -/
theorem C7_last_constructed_token_wins (token1 token2 : String) (d : AxiosDefaults)
    (h : token1 ≠ token2) :
    DropletService.constructorEffect token2 (DropletService.constructorEffect token1 d)
      = DropletService.constructorEffect token2 d ∧
    (DropletService.constructorEffect token2
        (DropletService.constructorEffect token1 d)).authorization
      = some ("Bearer " ++ token2) ∧
    (DropletService.constructorEffect token2
        (DropletService.constructorEffect token1 d)).contentType
      = some "application/json" ∧
    (DropletService.constructorEffect token2
        (DropletService.constructorEffect token1 d)).authorization
      ≠ some ("Bearer " ++ token1) ∧
    Axios.commonHeaders
        (DropletService.constructorEffect token2 (DropletService.constructorEffect token1 d))
      = [("Authorization", "Bearer " ++ token2), ("Content-Type", "application/json")] := by
  refine ⟨rfl, rfl, rfl, ?_, rfl⟩
  intro heq
  exact h (string_append_left_cancel (Option.some.inj heq)).symm

/-- C7 witness: constructing with token-one and then with token-two leaves
the shared defaults carrying the Bearer header of token-two, not of
token-one. -/
theorem C7_witness :
    (DropletService.constructorEffect "token-two"
        (DropletService.constructorEffect "token-one"
          { authorization := none, contentType := none })).authorization
      = some ("Bearer " ++ "token-two") ∧
    (DropletService.constructorEffect "token-two"
        (DropletService.constructorEffect "token-one"
          { authorization := none, contentType := none })).authorization
      ≠ some ("Bearer " ++ "token-one") := by
  have h := C7_last_constructed_token_wins "token-one" "token-two"
      { authorization := none, contentType := none } (by decide)
  exact ⟨h.2.1, h.2.2.2.1⟩

/-- C8 counterexample: the path conventions do not hold for every operation
of every resource service — in the capitalized app-service variant the
collection path is "/Apps" while getExistingApp requests "/apps/5" for id 5,
which does not append "/5" to that collection path; and
SpaceService.getUserInformation requests "/app", which is not a pluralized
resource name. -/
theorem C8_counterexample :
    AppService2.getAllAppsRequest.url = "/Apps" ∧
    (AppService2.getExistingAppRequest 5).url = "/apps/5" ∧
    (AppService2.getExistingAppRequest 5).url
      ≠ AppService2.getAllAppsRequest.url ++ "/" ++ toString (5 : Int) ∧
    SpaceService.getUserInformationRequest.url = "/app" ∧
    SpaceService.getUserInformationRequest.url ≠ "/apps" := by
  refine ⟨rfl, by decide, by decide, rfl, by decide⟩

/-- C8 (amended): the stated path conventions hold throughout the droplet
service and the lowercase app service: collection paths are the pluralized
lowercase resource names ("/droplets" under the base url, "/apps"), item and
delete paths append "/" and the id to the collection path, tag-filtered list
and delete pass the tag as the tag_name query parameter (interpolated into
the url query string by the droplet service, passed as the axios params
object by the app service), and associated-resource getters append
"/id/kernels|snapshots|backups|actions". The capitalized app-service
variant instead uses "/Apps" as its collection path (sub-resources under
"/Apps/id/..."), except getExistingApp which requests "/apps/id"; and
SpaceService.getUserInformation requests "/app". -/
theorem C8_paths_follow_conventions (baseUrl tag : String) (dropletId AppId : Int) :
    (DropletService.getAllDropletsRequest baseUrl).url = baseUrl ++ "/droplets" ∧
    (DropletService.getExistingDropletRequest baseUrl dropletId).url
      = (DropletService.getAllDropletsRequest baseUrl).url ++ "/" ++ toString dropletId ∧
    (DropletService.deleteDropletRequest baseUrl dropletId).url
      = (DropletService.getAllDropletsRequest baseUrl).url ++ "/" ++ toString dropletId ∧
    (DropletService.getDropletsByTagRequest baseUrl tag).url
      = (DropletService.getAllDropletsRequest baseUrl).url ++ "?tag_name=" ++ tag ∧
    (DropletService.deleteDropletsByTagRequest baseUrl tag).url
      = (DropletService.getAllDropletsRequest baseUrl).url ++ "?tag_name=" ++ tag ∧
    (DropletService.getAvailableKernelsForDropletRequest baseUrl dropletId).url
      = (DropletService.getAllDropletsRequest baseUrl).url
          ++ "/" ++ toString dropletId ++ "/kernels" ∧
    (DropletService.getSnapshotsForDropletRequest baseUrl dropletId).url
      = (DropletService.getAllDropletsRequest baseUrl).url
          ++ "/" ++ toString dropletId ++ "/snapshots" ∧
    (DropletService.getBackupsForDropletRequest baseUrl dropletId).url
      = (DropletService.getAllDropletsRequest baseUrl).url
          ++ "/" ++ toString dropletId ++ "/backups" ∧
    (DropletService.getDropletActionsRequest baseUrl dropletId).url
      = (DropletService.getAllDropletsRequest baseUrl).url
          ++ "/" ++ toString dropletId ++ "/actions" ∧
    AppService.getAllAppsRequest.url = "/apps" ∧
    (AppService.getExistingAppRequest AppId).url
      = AppService.getAllAppsRequest.url ++ "/" ++ toString AppId ∧
    (AppService.deleteAppRequest AppId).url
      = AppService.getAllAppsRequest.url ++ "/" ++ toString AppId ∧
    (AppService.getAppsByTagRequest tag).url = "/apps" ∧
    (AppService.getAppsByTagRequest tag).params = [("tag_name", tag)] ∧
    (AppService.deleteAppsByTagRequest tag).url = "/apps" ∧
    (AppService.deleteAppsByTagRequest tag).params = [("tag_name", tag)] ∧
    AppService2.getAllAppsRequest.url = "/Apps" ∧
    (AppService2.getAvailableKernelsForAppRequest AppId).url
      = AppService2.getAllAppsRequest.url ++ "/" ++ toString AppId ++ "/kernels" ∧
    (AppService2.getExistingAppRequest AppId).url = "/apps/" ++ toString AppId ∧
    SpaceService.getUserInformationRequest.url = "/app" := by
  have hdslash : ("/droplets" ++ "/" : String) = "/droplets/" := by decide
  have hdtag : ("/droplets" ++ "?tag_name=" : String) = "/droplets?tag_name=" := by decide
  have haslash : ("/apps" ++ "/" : String) = "/apps/" := by decide
  have hAslash : ("/Apps" ++ "/" : String) = "/Apps/" := by decide
  refine ⟨rfl, ?_, ?_, ?_, ?_, ?_, ?_, ?_, ?_, rfl, ?_, ?_, rfl, rfl, rfl, rfl,
    rfl, ?_, rfl, rfl⟩
  · show baseUrl ++ "/droplets/" ++ toString dropletId
      = baseUrl ++ "/droplets" ++ "/" ++ toString dropletId
    rw [append_append baseUrl "/droplets" "/" "/droplets/" hdslash]
  · show baseUrl ++ "/droplets/" ++ toString dropletId
      = baseUrl ++ "/droplets" ++ "/" ++ toString dropletId
    rw [append_append baseUrl "/droplets" "/" "/droplets/" hdslash]
  · show baseUrl ++ "/droplets?tag_name=" ++ tag
      = baseUrl ++ "/droplets" ++ "?tag_name=" ++ tag
    rw [append_append baseUrl "/droplets" "?tag_name=" "/droplets?tag_name=" hdtag]
  · show baseUrl ++ "/droplets?tag_name=" ++ tag
      = baseUrl ++ "/droplets" ++ "?tag_name=" ++ tag
    rw [append_append baseUrl "/droplets" "?tag_name=" "/droplets?tag_name=" hdtag]
  · show baseUrl ++ "/droplets/" ++ toString dropletId ++ "/kernels"
      = baseUrl ++ "/droplets" ++ "/" ++ toString dropletId ++ "/kernels"
    rw [append_append baseUrl "/droplets" "/" "/droplets/" hdslash]
  · show baseUrl ++ "/droplets/" ++ toString dropletId ++ "/snapshots"
      = baseUrl ++ "/droplets" ++ "/" ++ toString dropletId ++ "/snapshots"
    rw [append_append baseUrl "/droplets" "/" "/droplets/" hdslash]
  · show baseUrl ++ "/droplets/" ++ toString dropletId ++ "/backups"
      = baseUrl ++ "/droplets" ++ "/" ++ toString dropletId ++ "/backups"
    rw [append_append baseUrl "/droplets" "/" "/droplets/" hdslash]
  · show baseUrl ++ "/droplets/" ++ toString dropletId ++ "/actions"
      = baseUrl ++ "/droplets" ++ "/" ++ toString dropletId ++ "/actions"
    rw [append_append baseUrl "/droplets" "/" "/droplets/" hdslash]
  · show "/apps/" ++ toString AppId = "/apps" ++ "/" ++ toString AppId
    rw [haslash]
  · show "/apps/" ++ toString AppId = "/apps" ++ "/" ++ toString AppId
    rw [haslash]
  · show "/Apps/" ++ toString AppId ++ "/kernels"
      = "/Apps" ++ "/" ++ toString AppId ++ "/kernels"
    rw [hAslash]

/-- C9: The two variants of the app service capitalize path segments
inconsistently: for getAllApps (same arguments in both variants) one variant
requests the lowercase path "/apps" while the other requests "/Apps", so
the two variants issue different requests for the same call (they are not
request-equivalent, for getAllApps and likewise for getAppsByTag); and
within the capitalized variant itself, getExistingApp requests the
lowercase "/apps/id" while its sibling operations request "/Apps...". -/
theorem C9_variants_disagree_on_casing (AppId : Int) (tag : String) :
    AppService.getAllAppsRequest.url = "/apps" ∧
    AppService2.getAllAppsRequest.url = "/Apps" ∧
    AppService.getAllAppsRequest ≠ AppService2.getAllAppsRequest ∧
    AppService.getAppsByTagRequest tag ≠ AppService2.getAppsByTagRequest tag ∧
    (AppService2.getExistingAppRequest AppId).url = "/apps/" ++ toString AppId ∧
    (AppService2.deleteAppRequest AppId).url = "/Apps/" ++ toString AppId ∧
    (AppService2.getAppsByTagRequest tag).url = "/Apps" ∧
    (AppService2.getAvailableKernelsForAppRequest AppId).url
      = "/Apps/" ++ toString AppId ++ "/kernels" ∧
    (AppService2.getExistingAppRequest 5).url ≠ "/Apps/" ++ toString (5 : Int) := by
  refine ⟨rfl, rfl, ?_, ?_, rfl, rfl, rfl, rfl, ?_⟩
  · intro h
    have h2 : ("/apps" : String) = "/Apps" := congrArg HttpRequest.url h
    exact absurd h2 (by decide)
  · intro h
    have h2 : ("/apps" : String) = "/Apps" := congrArg HttpRequest.url h
    exact absurd h2 (by decide)
  · intro h
    exact absurd h (by decide)

/-- C10: SpaceService.getUserInformation issues its single GET request to
the path "/app" — not an "/account"-style endpoint — and, for every
fulfilled response whose body carries an account field, resolves with
exactly that field's value: the returned value is the account envelope
field even though the requested path names a different resource. -/
theorem C10_getUserInformation_app_path_account_field (t : Transport)
    (resp : HttpResponse) (v : JSValue) :
    SpaceService.getUserInformationRequest.verb = Verb.get ∧
    SpaceService.getUserInformationRequest.url = "/app" ∧
    SpaceService.getUserInformationRequest.url ≠ "/account" ∧
    SpaceService.getUserInformation t
      = (t SpaceService.getUserInformationRequest).map
          (fun r => r.data.getField "account") ∧
    (t SpaceService.getUserInformationRequest = .ok resp →
      resp.data.getField "account" = v →
      SpaceService.getUserInformation t = .ok v) := by
  refine ⟨rfl, rfl, ?_, unwrap_eq_map _ _, ?_⟩
  · intro h
    exact absurd h (by decide)
  · intro h1 h2
    exact (unwrap_ok _ _ _ h1).trans (congrArg Except.ok h2)

/-- C10 witness: against a stub transport fulfilling with a body nesting an
account object under the account field, getUserInformation resolves with
exactly that account object. -/
theorem C10_witness :
    SpaceService.getUserInformation
        (fun _ => Except.ok
          { status := 200,
            data := JSValue.obj [("account",
              JSValue.obj [("email", JSValue.str "user@example.com")])] })
      = Except.ok (JSValue.obj [("email", JSValue.str "user@example.com")]) := by
  have h := C10_getUserInformation_app_path_account_field
      (fun _ => Except.ok
        { status := 200,
          data := JSValue.obj [("account",
            JSValue.obj [("email", JSValue.str "user@example.com")])] })
      { status := 200,
        data := JSValue.obj [("account",
          JSValue.obj [("email", JSValue.str "user@example.com")])] }
      (JSValue.obj [("email", JSValue.str "user@example.com")])
  exact h.2.2.2.2 rfl rfl

/-- C1 witness: at a concrete id the per-droplet neighbor request carries
the DELETE verb, and against a stub transport fulfilling with an empty
droplets field the lookup resolves with that plural field. -/
theorem C1_witness :
    (DropletService.getNeighborsForDropletRequest "https://api.digitalocean.com/v2" 3).verb
      = Verb.delete ∧
    DropletService.getNeighborsForDroplet
        (fun _ => Except.ok
          { status := 200, data := JSValue.obj [("droplets", JSValue.arr [])] })
        "https://api.digitalocean.com/v2" 3
      = Except.ok (JSValue.arr []) := by
  have h := C1_neighbor_lookups_issue_delete
      (fun _ => Except.ok
        { status := 200, data := JSValue.obj [("droplets", JSValue.arr [])] })
      "https://api.digitalocean.com/v2" 3 4
  exact ⟨h.1, h.2.2.2.2.2.2.2.2.2.1.trans rfl⟩

/-- C2 witness: against a stub transport fulfilling every request with a
bodyless 204, deleteDroplet resolves with no value while deleteAppsByTag on
a tag that matched nothing resolves with the raw axios response. -/
theorem C2_witness :
    DropletService.deleteDroplet
        (fun _ => Except.ok { status := 204, data := JSValue.undefined })
        "https://api.digitalocean.com/v2" 9
      = Except.ok DeleteVal.void ∧
    AppService.deleteAppsByTag
        (fun _ => Except.ok { status := 204, data := JSValue.undefined })
        "nonexistent"
      = Except.ok (DeleteVal.response { status := 204, data := JSValue.undefined }) := by
  have h := C2_delete_resolution
      (fun _ => Except.ok { status := 204, data := JSValue.undefined })
      "https://api.digitalocean.com/v2" "nonexistent" 9 9
  exact ⟨h.1.trans rfl, h.2.2.2.1.trans rfl⟩

/-- C8 witness: at the production base url and id 3, the droplet collection
and item paths evaluate to the conventional strings. -/
theorem C8_witness :
    (DropletService.getAllDropletsRequest "https://api.digitalocean.com/v2").url
      = "https://api.digitalocean.com/v2/droplets" ∧
    (DropletService.getExistingDropletRequest "https://api.digitalocean.com/v2" 3).url
      = "https://api.digitalocean.com/v2/droplets/3" := by
  have h := C8_paths_follow_conventions "https://api.digitalocean.com/v2" "web" 3 4
  exact ⟨h.1.trans (by decide), h.2.1.trans (by decide)⟩

/-- C9 witness: at id 5 the capitalized variant requests "/apps/5" from
getExistingApp but "/Apps/5" from deleteApp. -/
theorem C9_witness :
    (AppService2.getExistingAppRequest 5).url = "/apps/5" ∧
    (AppService2.deleteAppRequest 5).url = "/Apps/5" := by
  have h := C9_variants_disagree_on_casing 5 "web"
  exact ⟨h.2.2.2.2.1.trans (by decide), h.2.2.2.2.2.1.trans (by decide)⟩
